import Mathlib

/-!
Shallow embedding of `fetch_worldbank_indicator` from `src/streamlit_app.py`
(lines 48–52 and 87–122), together with the module-level constant `TODAY`.

Python/JSON values are modelled by the inductive `Json` below.  Arrays and
objects are cons-encoded (`arrNil`/`arrCons`, `objNil`/`objCons`) so that
decidable equality can be derived; a Python list `[a, b]` is
`arrCons a (arrCons b arrNil)` and a dict `{"k": v}` is `objCons "k" v objNil`.
Dicts produced by `json.loads` have unique keys; lookups take the first match.

Numbers are modelled as integers: every numeric value the fetch routine
inspects (the parsed year) is integral, and the `value` column is only carried
along and compared for equality.
-/

/-- A decoded JSON / Python value.  `null` doubles as Python `None`. -/
inductive Json where
  | null
  | bool (b : Bool)
  | num (n : Int)
  | str (s : String)
  | arrNil
  | arrCons (head tail : Json)
  | objNil
  | objCons (key : String) (val : Json) (tail : Json)
deriving DecidableEq

/-- The Python exception class raised by a failing fetch attempt. -/
inductive PyErr where
  | httpError       -- requests.get / raise_for_status (network error or non-2xx)
  | jsonError       -- r.json() fails to decode the body
  | valueError      -- the explicit envelope ValueError, or int() on a bad string
  | typeError       -- int() on a list/dict, or iterating a non-iterable
  | attributeError  -- .get on a value that is not a dict
deriving DecidableEq

/-- One row of the returned dataframe (lines 106–112).  `date` holds the parsed
integer year (`none` for a missing year); the other columns hold the raw JSON
values extracted from the record. -/
structure Row where
  countryiso3code : Json
  country : Json
  date : Option Int
  value : Json
  indicator : Json
deriving DecidableEq

/-- First-match lookup in a cons-encoded JSON object; `none` when the key is
absent or the value is not an object.  Models `dict.__contains__`/`dict.get`
on the dicts produced by `json.loads` (whose keys are unique). -/
def lookupField : Json → String → Option Json
  | .objCons k v t, key => if k = key then some v else lookupField t key
  | _, _ => none

/-- `rec.get(key)`: the stored value, or Python `None` when the key is absent. -/
def jsonGetD (fields : Json) (key : String) : Json :=
  (lookupField fields key).getD .null

/-- Strip leading and trailing whitespace from a character list (the
whitespace stripping `int(str)` performs before parsing). -/
def stripWs (cs : List Char) : List Char :=
  ((cs.dropWhile Char.isWhitespace).reverse.dropWhile Char.isWhitespace).reverse

/-- Python `int(s)` on a string: optional surrounding whitespace, optional
sign, then decimal digits; `none` when the string does not parse.
(Python additionally accepts underscores between digits and non-ASCII digits;
no property below depends on those inputs.) -/
def pyIntOfString (s : String) : Option Int :=
  match stripWs s.data with
  | [] => none
  | c :: rest =>
    let signDigits : Int × List Char :=
      if c = '-' then (-1, rest) else if c = '+' then (1, rest) else (1, c :: rest)
    match signDigits with
    | (sign, ds) =>
      if ds = [] then none
      else if ds.all (fun d => d.isDigit) then
        some (sign * (ds.foldl (fun acc d => acc * 10 + ((d.toNat : Int) - 48)) 0))
      else none

/-- Line 103: `int(rec.get("date")) if rec.get("date") not in (None, "") else None`.
`None` and `""` give a null year; any other value goes through `int(...)`,
whose failure (an exception) aborts the whole attempt. -/
def parse_date : Json → Except PyErr (Option Int)
  | .null => .ok none
  | .str s =>
    if s = "" then .ok none
    else
      match pyIntOfString s with
      | some n => .ok (some n)
      | none => .error .valueError        -- int("...") raises ValueError
  | .num n => .ok (some n)                -- int() of a JSON number
  | .bool b => .ok (some (if b then 1 else 0))  -- int(True) = 1, int(False) = 0
  | _ => .error .typeError                -- int() of a list/dict raises TypeError

/-- Line 108: `rec.get("country", {}).get("value")`.  An absent key defaults to
`{}`, so the inner `.get` yields `None`; a present non-dict value (including
an explicit `null`) makes the inner `.get` raise AttributeError. -/
def get_country_value (fields : Json) : Except PyErr Json :=
  match lookupField fields "country" with
  | none => .ok .null
  | some inner =>
    match inner with
    | .objNil => .ok (jsonGetD .objNil "value")
    | .objCons k v t => .ok (jsonGetD (.objCons k v t) "value")
    | _ => .error .attributeError

/-- Line 111: `rec.get("indicator", {}).get("id")`, same shape as
`get_country_value`. -/
def get_indicator_id (fields : Json) : Except PyErr Json :=
  match lookupField fields "indicator" with
  | none => .ok .null
  | some inner =>
    match inner with
    | .objNil => .ok (jsonGetD .objNil "id")
    | .objCons k v t => .ok (jsonGetD (.objCons k v t) "id")
    | _ => .error .attributeError

/-- Lines 106–112: build the row dict for one record.  The dict literal is
evaluated left to right, so a failing `country` extraction raises before
`indicator` is looked at. -/
def build_row (fields : Json) (dOpt : Option Int) : Except PyErr (Option Row) :=
  match get_country_value fields with
  | .error e => .error e
  | .ok c =>
    match get_indicator_id fields with
    | .error e => .error e
    | .ok i =>
      .ok (some { countryiso3code := jsonGetD fields "countryiso3code"
                  country := c
                  date := dOpt
                  value := jsonGetD fields "value"
                  indicator := i })

/-- Lines 102–112: process one raw record.  `ok none` means the record was
dropped by the future-year filter (`continue`, lines 104–105); `ok (some r)`
appends row `r`; an error aborts the whole attempt.  `rec.get` on a non-dict
record raises AttributeError. -/
def process_fields (today : Int) (fields : Json) : Except PyErr (Option Row) :=
  match parse_date (jsonGetD fields "date") with
  | .error e => .error e
  | .ok dOpt =>
    match dOpt with
    | some y => if today < y then .ok none else build_row fields (some y)
    | none => build_row fields none

/-- Dispatch on the record's shape: `rec.get` on a non-dict raises. -/
def processRecord (today : Int) : Json → Except PyErr (Option Row)
  | .objNil => process_fields today .objNil
  | .objCons k v t => process_fields today (.objCons k v t)
  | _ => .error .attributeError

/-- The `for rec in records` loop (lines 102–112): rows accumulate in record
order; the first per-record exception aborts the attempt. -/
def processRecords (today : Int) : List Json → Except PyErr (List Row)
  | [] => .ok []
  | rec :: rs =>
    match processRecord today rec with
    | .error e => .error e
    | .ok none => processRecords today rs
    | .ok (some row) =>
      match processRecords today rs with
      | .error e => .error e
      | .ok rows => .ok (row :: rows)

/-- Lines 97–100: `if not (isinstance(data, list) and len(data) >= 2):
raise ValueError("Unexpected response structure")`, then `records = data[1]`.
Only a JSON array of length at least two passes the check. -/
def parseEnvelope : Json → Except PyErr Json
  | .arrCons _ (.arrCons second _) => .ok second
  | _ => .error .valueError

/-- `for rec in records` also has to iterate `records` itself: lists yield
their elements, strings their one-character substrings, dicts their keys;
anything else raises TypeError.  (Improper `arrCons` chains do not represent
Python lists; they are rejected like non-iterables.) -/
def iter_records : Json → Except PyErr (List Json)
  | .arrNil => .ok []
  | .arrCons h t =>
    match iter_records t with
    | .ok rest => .ok (h :: rest)
    | .error e => .error e
  | .str s => .ok (s.toList.map (fun ch => .str (String.mk [ch])))
  | .objNil => .ok []
  | .objCons k _ t =>
    match iter_records t with
    | .ok rest => .ok (.str k :: rest)
    | .error e => .error e
  | _ => .error .typeError

/-- `df.drop_duplicates()` (line 115) keeps the first occurrence of each
full row; `seen` carries the rows already kept. -/
def dedup_from (seen : List Row) : List Row → List Row
  | [] => []
  | r :: rs => if r ∈ seen then dedup_from seen rs else r :: dedup_from (r :: seen) rs

/-- Line 115: `df.drop_duplicates().reset_index(drop=True)` — full-row
deduplication keeping first occurrences, in order. -/
def drop_duplicates (rows : List Row) : List Row :=
  dedup_from [] rows

/-- Line 116: `pd.to_datetime(df["date"].astype("Int64").astype("float"),
format="%Y", errors="coerce").dt.date`.  An integral year `y` parses to the
date `y-01-01` when that date lies inside the pandas `Timestamp` range
(1677-09-21 … 2262-04-11), i.e. for `1678 ≤ y ≤ 2262`; out-of-range years and
missing years coerce to `NaT`.  The resulting January-1st date is represented
here by its year, `NaT` by `none`. -/
def to_datetime_year : Option Int → Option Int
  | none => none
  | some y => if 1678 ≤ y ∧ y ≤ 2262 then some y else none

/-- Apply the line-116 date conversion to one row. -/
def convertRow (r : Row) : Row :=
  { r with date := to_datetime_year r.date }

/-- What one HTTP attempt (lines 95–97) can observe. -/
inductive WBResponse where
  | httpFailure        -- requests.get raises, or raise_for_status on non-2xx
  | invalidJson        -- r.json() cannot decode the body
  | body (data : Json) -- a 2xx response whose body decoded to `data`
deriving DecidableEq

/-- Lines 95–117: one full attempt of the `try` body, from the HTTP call to
the returned dataframe.  The source guards the dedup/convert steps with
`if not df.empty`, but both branches agree on the empty list, so the guard is
dropped here. -/
def fetch_attempt (today : Int) : WBResponse → Except PyErr (List Row)
  | .httpFailure => .error .httpError
  | .invalidJson => .error .jsonError
  | .body data =>
    match parseEnvelope data with
    | .error e => .error e
    | .ok records =>
      match iter_records records with
      | .error e => .error e
      | .ok recs =>
        match processRecords today recs with
        | .error e => .error e
        | .ok rows => .ok ((drop_duplicates rows).map convertRow)

deriving instance DecidableEq for Except

/-- The observable outcome of a call: how many HTTP GETs were issued, the
`time.sleep` durations in order, and the returned rows or the propagated
exception. -/
structure FetchOutcome where
  attempts : Nat
  sleeps : List ℚ
  result : Except PyErr (List Row)
deriving DecidableEq

/-- The retry loop (lines 92–122).  The source iterates
`while attempt <= retries`, incrementing `attempt` on failure and re-raising
once `attempt > retries`; here `attempt` counts as in the source and `left`
is the loop invariant `retries - attempt`, so `left = 0` is exactly the
source's exhaustion test and the `N`-th retry sleeps
`backoff * N = backoff * (attempt + 1)` (line 122) before re-entering. -/
def fetch_go (today : Int) (provider : Nat → WBResponse) (backoff : ℚ) :
    Nat → Nat → FetchOutcome
  | attempt, 0 =>
    match fetch_attempt today (provider attempt) with
    | .ok rows => { attempts := 1, sleeps := [], result := .ok rows }
    | .error e => { attempts := 1, sleeps := [], result := .error e }
  | attempt, left + 1 =>
    match fetch_attempt today (provider attempt) with
    | .ok rows => { attempts := 1, sleeps := [], result := .ok rows }
    | .error _ =>
      let rest := fetch_go today provider backoff (attempt + 1) left
      { attempts := rest.attempts + 1
        sleeps := backoff * ((attempt : ℚ) + 1) :: rest.sleeps
        result := rest.result }

/-- Lines 87–122: `fetch_worldbank_indicator(indicator_code, per_page, retries,
backoff)`.  `indicator_code` and `per_page` only shape the request URL and
query string (lines 89–91), which the abstract `provider` stands for — they
never enter row construction.  `today` is the year of the module-level
constant `TODAY` (line 52) read by the filter on line 104.  `provider n` is
the response observed by the `n`-th HTTP attempt. -/
def fetch_worldbank_indicator (indicator_code : String) (per_page : Nat)
    (today : Int) (provider : Nat → WBResponse) (retries : Nat) (backoff : ℚ) :
    FetchOutcome :=
  fetch_go today provider backoff 0 retries

/-- A call executing at wall-clock year `callYear` inside a process whose
module was imported at year `importYear`: `TODAY` is bound once at import
(line 52) and the filter on line 104 reads `TODAY.year`, never consulting the
clock again, so the call filters against `importYear` regardless of
`callYear`. -/
def fetch_at_call (indicator_code : String) (per_page : Nat)
    (importYear callYear : Int) (provider : Nat → WBResponse) (retries : Nat)
    (backoff : ℚ) : FetchOutcome :=
  fetch_worldbank_indicator indicator_code per_page importYear provider retries backoff

/-! ### Helper lemmas -/

theorem mem_dedup_from (x : Row) : ∀ (seen l : List Row),
    x ∈ dedup_from seen l ↔ x ∈ l ∧ x ∉ seen := by
  intro seen l
  induction l generalizing seen with
  | nil => simp [dedup_from]
  | cons r rs ih =>
    by_cases hr : r ∈ seen
    · simp only [dedup_from, if_pos hr, ih]
      constructor
      · rintro ⟨hx, hn⟩
        exact ⟨List.mem_cons_of_mem _ hx, hn⟩
      · rintro ⟨hx, hn⟩
        rcases List.mem_cons.mp hx with rfl | hx
        · exact absurd hr hn
        · exact ⟨hx, hn⟩
    · simp only [dedup_from, if_neg hr]
      constructor
      · intro hx
        rcases List.mem_cons.mp hx with rfl | hx
        · exact ⟨List.mem_cons_self _ _, hr⟩
        · rcases (ih (r :: seen)).mp hx with ⟨h1, h2⟩
          exact ⟨List.mem_cons_of_mem _ h1, fun hs => h2 (List.mem_cons_of_mem _ hs)⟩
      · rintro ⟨hx, hn⟩
        rcases List.mem_cons.mp hx with rfl | hx
        · exact List.mem_cons_self _ _
        · by_cases hxr : x = r
          · subst hxr; exact List.mem_cons_self _ _
          · exact List.mem_cons_of_mem _ ((ih (r :: seen)).mpr
              ⟨hx, fun hs => (List.mem_cons.mp hs).elim hxr hn⟩)

theorem dedup_from_sublist : ∀ (seen l : List Row), List.Sublist (dedup_from seen l) l := by
  intro seen l
  induction l generalizing seen with
  | nil => simp [dedup_from]
  | cons r rs ih =>
    by_cases hr : r ∈ seen
    · simp only [dedup_from, if_pos hr]
      exact List.Sublist.cons r (ih seen)
    · simp only [dedup_from, if_neg hr]
      exact List.Sublist.cons₂ r (ih (r :: seen))

theorem dedup_from_nodup : ∀ (seen l : List Row), (dedup_from seen l).Nodup := by
  intro seen l
  induction l generalizing seen with
  | nil => simp [dedup_from]
  | cons r rs ih =>
    by_cases hr : r ∈ seen
    · simpa only [dedup_from, if_pos hr] using ih seen
    · simp only [dedup_from, if_neg hr, List.nodup_cons]
      refine ⟨fun hmem => ?_, ih (r :: seen)⟩
      exact ((mem_dedup_from r (r :: seen) rs).mp hmem).2 (List.mem_cons_self _ _)

theorem drop_duplicates_nodup (l : List Row) : (drop_duplicates l).Nodup :=
  dedup_from_nodup [] l

theorem drop_duplicates_sublist (l : List Row) : List.Sublist (drop_duplicates l) l :=
  dedup_from_sublist [] l

theorem mem_drop_duplicates (x : Row) (l : List Row) :
    x ∈ drop_duplicates l ↔ x ∈ l := by
  simpa using mem_dedup_from x [] l

theorem convertRow_date {r : Row} {y : Int} (h : (convertRow r).date = some y) :
    r.date = some y ∧ 1678 ≤ y ∧ y ≤ 2262 := by
  have hd : to_datetime_year r.date = some y := h
  rcases hr : r.date with _ | y0
  · rw [hr] at hd
    simp [to_datetime_year] at hd
  · rw [hr] at hd
    simp only [to_datetime_year] at hd
    split at hd
    · rename_i hb
      obtain rfl : y0 = y := Option.some.inj hd
      exact ⟨rfl, hb⟩
    · exact absurd hd (by simp)

theorem convertRow_indicator (r : Row) : (convertRow r).indicator = r.indicator := rfl

theorem convertRow_eq_self {r : Row}
    (h : ∀ y, r.date = some y → 1678 ≤ y ∧ y ≤ 2262) : convertRow r = r := by
  obtain ⟨c3, c, d, v, i⟩ := r
  rcases d with _ | y
  · simp [convertRow, to_datetime_year]
  · have hb := h y rfl
    simp [convertRow, to_datetime_year, hb.1, hb.2]

theorem build_row_ok {fields : Json} {d : Option Int} {r : Row}
    (h : build_row fields d = .ok (some r)) :
    r.date = d ∧ get_country_value fields = .ok r.country
      ∧ get_indicator_id fields = .ok r.indicator
      ∧ r.countryiso3code = jsonGetD fields "countryiso3code"
      ∧ r.value = jsonGetD fields "value" := by
  unfold build_row at h
  split at h
  · exact Except.noConfusion h
  · rename_i c hc
    split at h
    · exact Except.noConfusion h
    · rename_i i hi
      obtain rfl : (⟨jsonGetD fields "countryiso3code", c, d,
          jsonGetD fields "value", i⟩ : Row) = r := Option.some.inj (Except.ok.inj h)
      exact ⟨rfl, hc, hi, rfl, rfl⟩

theorem process_fields_ok {today : Int} {fields : Json} {r : Row}
    (h : process_fields today fields = .ok (some r)) :
    (∀ y, r.date = some y → y ≤ today)
      ∧ get_indicator_id fields = .ok r.indicator := by
  unfold process_fields at h
  split at h
  · exact Except.noConfusion h
  · rename_i dOpt hd
    split at h
    · rename_i y0
      split at h
      · exact Option.noConfusion (Except.ok.inj h)
      · rename_i hlt
        obtain ⟨hdate, _, hind, _, _⟩ := build_row_ok h
        refine ⟨fun y hy => ?_, hind⟩
        obtain rfl : y0 = y := Option.some.inj (hdate ▸ hy)
        omega
    · obtain ⟨hdate, _, hind, _, _⟩ := build_row_ok h
      exact ⟨fun y hy => absurd (hdate ▸ hy) (by simp), hind⟩

theorem processRecord_ok {today : Int} {rec : Json} {r : Row}
    (h : processRecord today rec = .ok (some r)) :
    (∀ y, r.date = some y → y ≤ today)
      ∧ get_indicator_id rec = .ok r.indicator := by
  cases rec <;> simp only [processRecord] at h
  case objNil => exact process_fields_ok h
  case objCons k v t => exact process_fields_ok h
  all_goals exact Except.noConfusion h

theorem processRecords_mem {today : Int} :
    ∀ {recs : List Json} {raws : List Row},
      processRecords today recs = .ok raws →
      ∀ r ∈ raws, ∃ rec ∈ recs, processRecord today rec = .ok (some r) := by
  intro recs
  induction recs with
  | nil =>
    intro raws h r hr
    simp only [processRecords] at h
    obtain rfl : ([] : List Row) = raws := Except.ok.inj h
    exact absurd hr (by simp)
  | cons rec rs ih =>
    intro raws h r hr
    simp only [processRecords] at h
    split at h
    · exact Except.noConfusion h
    · rename_i hp
      obtain ⟨rec', hmem, hp'⟩ := ih h r hr
      exact ⟨rec', List.mem_cons_of_mem _ hmem, hp'⟩
    · rename_i row hp
      split at h
      · exact Except.noConfusion h
      · rename_i rows hrs
        obtain rfl : row :: rows = raws := Except.ok.inj h
        rcases List.mem_cons.mp hr with rfl | hr'
        · exact ⟨rec, List.mem_cons_self _ _, hp⟩
        · obtain ⟨rec', hmem, hp'⟩ := ih hrs r hr'
          exact ⟨rec', List.mem_cons_of_mem _ hmem, hp'⟩

theorem processRecords_date_le {today : Int} {recs : List Json} {raws : List Row}
    (h : processRecords today recs = .ok raws) :
    ∀ r ∈ raws, ∀ y, r.date = some y → y ≤ today := by
  intro r hr y hy
  obtain ⟨rec, _, hp⟩ := processRecords_mem h r hr
  exact (processRecord_ok hp).1 y hy

theorem fetch_attempt_ok {today : Int} {resp : WBResponse} {rows : List Row}
    (h : fetch_attempt today resp = .ok rows) :
    ∃ data records recs raws,
      resp = .body data
        ∧ parseEnvelope data = .ok records
        ∧ iter_records records = .ok recs
        ∧ processRecords today recs = .ok raws
        ∧ rows = (drop_duplicates raws).map convertRow := by
  cases resp with
  | httpFailure => exact Except.noConfusion h
  | invalidJson => exact Except.noConfusion h
  | body data =>
    simp only [fetch_attempt] at h
    split at h
    · exact Except.noConfusion h
    · rename_i records h1
      split at h
      · exact Except.noConfusion h
      · rename_i recs h2
        split at h
        · exact Except.noConfusion h
        · rename_i raws h3
          exact ⟨data, records, recs, raws, rfl, h1, h2, h3, (Except.ok.inj h).symm⟩

theorem fetch_go_attempts_pos (today : Int) (provider : Nat → WBResponse) (backoff : ℚ)
    (attempt left : Nat) : 1 ≤ (fetch_go today provider backoff attempt left).attempts := by
  cases left <;> simp only [fetch_go] <;> split <;> simp

theorem fetch_go_result_ok {today : Int} {provider : Nat → WBResponse} {backoff : ℚ} :
    ∀ {left attempt : Nat} {rows : List Row},
      (fetch_go today provider backoff attempt left).result = .ok rows →
      ∃ n, fetch_attempt today (provider n) = .ok rows := by
  intro left
  induction left with
  | zero =>
    intro attempt rows h
    simp only [fetch_go] at h
    split at h
    · exact ⟨attempt, by rename_i rows' hr; rw [hr]; exact congrArg Except.ok (Except.ok.inj h)⟩
    · exact Except.noConfusion h
  | succ left ih =>
    intro attempt rows h
    simp only [fetch_go] at h
    split at h
    · exact ⟨attempt, by rename_i rows' hr; rw [hr]; exact congrArg Except.ok (Except.ok.inj h)⟩
    · exact ih h

theorem fetch_go_all_fail {today : Int} {provider : Nat → WBResponse} {backoff : ℚ}
    (hfail : ∀ n, ∃ e, fetch_attempt today (provider n) = .error e) :
    ∀ (left attempt : Nat),
      (fetch_go today provider backoff attempt left).attempts = left + 1
        ∧ ∀ e, fetch_attempt today (provider (attempt + left)) = .error e →
            (fetch_go today provider backoff attempt left).result = .error e := by
  intro left
  induction left with
  | zero =>
    intro attempt
    obtain ⟨e0, he0⟩ := hfail attempt
    constructor
    · simp only [fetch_go, he0]
    · intro e he
      rw [Nat.add_zero] at he
      simp only [fetch_go, he]
  | succ left ih =>
    intro attempt
    obtain ⟨e0, he0⟩ := hfail attempt
    constructor
    · simp only [fetch_go, he0]
      exact congrArg (· + 1) (ih (attempt + 1)).1
    · intro e he
      simp only [fetch_go, he0]
      refine (ih (attempt + 1)).2 e ?_
      have hn : attempt + 1 + left = attempt + (left + 1) := by omega
      rw [hn]
      exact he

theorem fetch_go_sleeps_shape (today : Int) (provider : Nat → WBResponse) (backoff : ℚ) :
    ∀ (left attempt : Nat),
      (fetch_go today provider backoff attempt left).sleeps
        = (List.range ((fetch_go today provider backoff attempt left).attempts - 1)).map
            (fun i : Nat => backoff * ((attempt : ℚ) + (i : ℚ) + 1)) := by
  intro left
  induction left with
  | zero =>
    intro attempt
    simp only [fetch_go]
    split <;> simp
  | succ left ih =>
    intro attempt
    simp only [fetch_go]
    split
    · simp
    · have hpos := fetch_go_attempts_pos today provider backoff (attempt + 1) left
      obtain ⟨m, hm⟩ := Nat.exists_eq_add_of_le hpos
      show backoff * ((attempt : ℚ) + 1)
            :: (fetch_go today provider backoff (attempt + 1) left).sleeps
          = (List.range ((fetch_go today provider backoff (attempt + 1) left).attempts
              + 1 - 1)).map (fun i : Nat => backoff * ((attempt : ℚ) + (i : ℚ) + 1))
      rw [Nat.add_sub_cancel, ih (attempt + 1), hm]
      have h1 : 1 + m - 1 = m := by omega
      rw [h1, Nat.add_comm 1 m, List.range_succ_eq_map, List.map_cons, List.map_map]
      refine List.cons_eq_cons.mpr ⟨?_, ?_⟩
      · push_cast
        ring
      · apply List.map_congr_left
        intro i _
        simp only [Function.comp_apply]
        push_cast
        ring

/-! ### Claims -/

/-- C1: for every successful call to `fetch_worldbank_indicator`, every record
of the returned sequence whose year is present has year at most the current
wall-clock year at call time; records whose parsed year exceeds the current
year are dropped (lines 104–105) before the sequence is returned.  The filter
compares against the import-time year, which never exceeds the call-time
year. -/
theorem c1_year_le_current
    (indicator_code : String) (per_page : Nat) (importYear callYear : Int)
    (provider : Nat → WBResponse) (retries : Nat) (backoff : ℚ) (rows : List Row)
    (hclock : importYear ≤ callYear)
    (hok : (fetch_at_call indicator_code per_page importYear callYear provider
        retries backoff).result = .ok rows) :
    ∀ r ∈ rows, ∀ y, r.date = some y → y ≤ callYear := by
  intro r hr y hy
  obtain ⟨n, hatt⟩ := fetch_go_result_ok hok
  obtain ⟨data, records, recs, raws, _, _, _, hproc, hrows⟩ := fetch_attempt_ok hatt
  rcases List.mem_map.mp (hrows ▸ hr) with ⟨r0, hr0, rfl⟩
  obtain ⟨hd0, _, _⟩ := convertRow_date hy
  have hr0raw : r0 ∈ raws := (mem_drop_duplicates r0 raws).mp hr0
  have hle := processRecords_date_le hproc r0 hr0raw y hd0
  omega

/-- Witness for C1 at a concrete provider response containing one 2020 record,
with import year 2024 and call year 2025. -/
theorem c1_witness :
    (2024 : Int) ≤ 2025
      ∧ (fetch_at_call "EN.ATM.CO2E.PC" 20000 2024 2025
          (fun _ => WBResponse.body (Json.arrCons Json.null (Json.arrCons
            (Json.arrCons (Json.objCons "date" (Json.str "2020")
              (Json.objCons "value" (Json.num 4) Json.objNil)) Json.arrNil)
            Json.arrNil))) 0 1).result
        = .ok [(⟨Json.null, Json.null, some 2020, Json.num 4, Json.null⟩ : Row)]
      ∧ ∀ r ∈ [(⟨Json.null, Json.null, some 2020, Json.num 4, Json.null⟩ : Row)],
          ∀ y, r.date = some y → y ≤ 2025 := by
  refine ⟨by decide, by decide, ?_⟩
  intro r hr y hy
  exact c1_year_le_current "EN.ATM.CO2E.PC" 20000 2024 2025
    (fun _ => WBResponse.body (Json.arrCons Json.null (Json.arrCons
      (Json.arrCons (Json.objCons "date" (Json.str "2020")
        (Json.objCons "value" (Json.num 4) Json.objNil)) Json.arrNil)
      Json.arrNil))) 0 1
    [(⟨Json.null, Json.null, some 2020, Json.num 4, Json.null⟩ : Row)]
    (by decide) (by decide) r hr y hy

/-- C2: with `retries = N` and a provider failing every attempt (non-success
status or malformed envelope), the loop on lines 92–122 performs exactly
`N + 1` HTTP GET attempts and then raises; `N = 0` means a single attempt and
no retry. -/
theorem c2_attempt_count
    (indicator_code : String) (per_page : Nat) (today : Int)
    (provider : Nat → WBResponse) (retries : Nat) (backoff : ℚ)
    (hfail : ∀ n, ∃ e, fetch_attempt today (provider n) = .error e) :
    (fetch_worldbank_indicator indicator_code per_page today provider retries
        backoff).attempts = retries + 1
      ∧ ∃ e, (fetch_worldbank_indicator indicator_code per_page today provider
          retries backoff).result = .error e := by
  obtain ⟨e, he⟩ := hfail retries
  refine ⟨(fetch_go_all_fail hfail retries 0).1, e, ?_⟩
  exact (fetch_go_all_fail hfail retries 0).2 e (by simpa using he)

/-- Witness for C2: an always-failing provider with `retries = 2` yields three
attempts, and with `retries = 0` a single attempt. -/
theorem c2_witness :
    (fetch_worldbank_indicator "SL.AGR.EMPL.ZS" 20000 2024
        (fun _ => WBResponse.httpFailure) 2 1).attempts = 2 + 1
      ∧ (fetch_worldbank_indicator "SL.AGR.EMPL.ZS" 20000 2024
          (fun _ => WBResponse.httpFailure) 0 1).attempts = 0 + 1
      ∧ ∃ e, (fetch_worldbank_indicator "SL.AGR.EMPL.ZS" 20000 2024
          (fun _ => WBResponse.httpFailure) 2 1).result = .error e :=
  ⟨(c2_attempt_count "SL.AGR.EMPL.ZS" 20000 2024 (fun _ => WBResponse.httpFailure) 2 1
      (fun _ => ⟨.httpError, rfl⟩)).1,
   (c2_attempt_count "SL.AGR.EMPL.ZS" 20000 2024 (fun _ => WBResponse.httpFailure) 0 1
      (fun _ => ⟨.httpError, rfl⟩)).1,
   (c2_attempt_count "SL.AGR.EMPL.ZS" 20000 2024 (fun _ => WBResponse.httpFailure) 2 1
      (fun _ => ⟨.httpError, rfl⟩)).2⟩

/-- C3 counterexample: a record whose `date` field is present but unparseable
(the string "abc") makes the whole fetch raise the ValueError from
`int("abc")` (line 103) instead of keeping the record with a null year — with
`retries = 0` the call fails outright rather than returning any sequence. -/
theorem c3_counterexample :
    (fetch_worldbank_indicator "SL.IND.EMPL.ZS" 20000 2024
        (fun _ => WBResponse.body (Json.arrCons Json.null (Json.arrCons
          (Json.arrCons (Json.objCons "date" (Json.str "abc") Json.objNil)
            Json.arrNil) Json.arrNil))) 0 1).result = .error .valueError := by
  decide

/-- C3 (amended): only an absent, null, or empty-string `date` is handled
permissively — the record is kept with a null year and the remaining records
are still processed and returned; a present but unparseable date instead
aborts the whole attempt (see the counterexample). -/
theorem c3_absent_date_gives_null_year
    (today : Int) (fields c i : Json) (rs : List Json) (rest : List Row)
    (hobj : (∃ k v t, fields = Json.objCons k v t) ∨ fields = Json.objNil)
    (hd : lookupField fields "date" = none ∨ lookupField fields "date" = some .null
        ∨ lookupField fields "date" = some (.str ""))
    (hc : get_country_value fields = .ok c) (hi : get_indicator_id fields = .ok i)
    (hrest : processRecords today rs = .ok rest) :
    processRecords today (fields :: rs)
      = .ok (⟨jsonGetD fields "countryiso3code", c, none,
          jsonGetD fields "value", i⟩ :: rest) := by
  have hpd : parse_date (jsonGetD fields "date") = .ok none := by
    rcases hd with h | h | h <;> simp [jsonGetD, h, parse_date]
  have hpf : process_fields today fields
      = .ok (some ⟨jsonGetD fields "countryiso3code", c, none,
          jsonGetD fields "value", i⟩) := by
    simp [process_fields, build_row, hpd, hc, hi]
  have hpr : processRecord today fields
      = .ok (some ⟨jsonGetD fields "countryiso3code", c, none,
          jsonGetD fields "value", i⟩) := by
    rcases hobj with ⟨k, v, t, rfl⟩ | rfl <;> simpa [processRecord] using hpf
  simp [processRecords, hpr, hrest]

/-- Witness for the amended C3: an empty-string date yields a kept record with
a null year. -/
theorem c3_witness :
    processRecords 2024 [Json.objCons "date" (Json.str "") Json.objNil]
      = .ok [⟨Json.null, Json.null, none, Json.null, Json.null⟩] :=
  c3_absent_date_gives_null_year 2024 (Json.objCons "date" (Json.str "") Json.objNil)
    Json.null Json.null [] []
    (Or.inl ⟨"date", Json.str "", Json.objNil, rfl⟩)
    (Or.inr (Or.inr rfl)) rfl rfl rfl

/-- C4 counterexample: requesting code "EN.ATM.CO2E.PC" against a response
whose record carries `indicator.id = "OTHER"` returns a row whose indicator
column is "OTHER", not the requested code — line 111 reads the record, it
does not echo the request. -/
theorem c4_counterexample :
    (fetch_worldbank_indicator "EN.ATM.CO2E.PC" 20000 2024
        (fun _ => WBResponse.body (Json.arrCons Json.null (Json.arrCons
          (Json.arrCons (Json.objCons "indicator"
            (Json.objCons "id" (Json.str "OTHER") Json.objNil)
            (Json.objCons "date" (Json.str "2000") Json.objNil)) Json.arrNil)
          Json.arrNil))) 2 1).result
      = .ok [⟨Json.null, Json.null, some 2000, Json.null, Json.str "OTHER"⟩]
    ∧ Json.str "OTHER" ≠ Json.str "EN.ATM.CO2E.PC" := ⟨by decide, by decide⟩

/-- C4 (amended): the indicator column of every returned row is the `id`
extracted from that record's own `indicator` object in the provider response
(line 111); the requested `indicator_code` (and `per_page`) only shape the
request URL and never influence the returned rows, so the column equals the
requested code only when the provider echoes it. -/
theorem c4_indicator_from_response
    (indicator_code code' : String) (per_page per_page' : Nat) (today : Int)
    (provider : Nat → WBResponse) (retries : Nat) (backoff : ℚ) (rows : List Row)
    (hok : (fetch_worldbank_indicator indicator_code per_page today provider
        retries backoff).result = .ok rows) :
    fetch_worldbank_indicator code' per_page' today provider retries backoff
        = fetch_worldbank_indicator indicator_code per_page today provider
            retries backoff
      ∧ ∃ data records recs, (∃ n, provider n = .body data)
          ∧ parseEnvelope data = .ok records
          ∧ iter_records records = .ok recs
          ∧ ∀ r ∈ rows, ∃ rec ∈ recs, get_indicator_id rec = .ok r.indicator := by
  refine ⟨rfl, ?_⟩
  obtain ⟨n, hatt⟩ := fetch_go_result_ok hok
  obtain ⟨data, records, recs, raws, hresp, h1, h2, h3, hrows⟩ := fetch_attempt_ok hatt
  refine ⟨data, records, recs, ⟨n, hresp⟩, h1, h2, ?_⟩
  intro r hr
  rcases List.mem_map.mp (hrows ▸ hr) with ⟨r0, hr0, rfl⟩
  obtain ⟨rec, hmem, hp⟩ :=
    processRecords_mem h3 r0 ((mem_drop_duplicates r0 raws).mp hr0)
  exact ⟨rec, hmem, by rw [convertRow_indicator]; exact (processRecord_ok hp).2⟩

/-- Witness for the amended C4, at the same concrete response: the returned
indicator "OTHER" is traceable to the response record. -/
theorem c4_witness :
    fetch_worldbank_indicator "SL.SRV.EMPL.ZS" 7 2024
        (fun _ => WBResponse.body (Json.arrCons Json.null (Json.arrCons
          (Json.arrCons (Json.objCons "indicator"
            (Json.objCons "id" (Json.str "OTHER") Json.objNil)
            (Json.objCons "date" (Json.str "2000") Json.objNil)) Json.arrNil)
          Json.arrNil))) 2 1
        = fetch_worldbank_indicator "EN.ATM.CO2E.PC" 20000 2024
            (fun _ => WBResponse.body (Json.arrCons Json.null (Json.arrCons
              (Json.arrCons (Json.objCons "indicator"
                (Json.objCons "id" (Json.str "OTHER") Json.objNil)
                (Json.objCons "date" (Json.str "2000") Json.objNil)) Json.arrNil)
              Json.arrNil))) 2 1
      ∧ ∃ data records recs,
          (∃ n, (fun _ : Nat => WBResponse.body (Json.arrCons Json.null (Json.arrCons
            (Json.arrCons (Json.objCons "indicator"
              (Json.objCons "id" (Json.str "OTHER") Json.objNil)
              (Json.objCons "date" (Json.str "2000") Json.objNil)) Json.arrNil)
            Json.arrNil))) n = .body data)
          ∧ parseEnvelope data = .ok records
          ∧ iter_records records = .ok recs
          ∧ ∀ r ∈ [(⟨Json.null, Json.null, some 2000, Json.null,
                Json.str "OTHER"⟩ : Row)],
              ∃ rec ∈ recs, get_indicator_id rec = .ok r.indicator :=
  c4_indicator_from_response "EN.ATM.CO2E.PC" "SL.SRV.EMPL.ZS" 20000 7 2024
    (fun _ => WBResponse.body (Json.arrCons Json.null (Json.arrCons
      (Json.arrCons (Json.objCons "indicator"
        (Json.objCons "id" (Json.str "OTHER") Json.objNil)
        (Json.objCons "date" (Json.str "2000") Json.objNil)) Json.arrNil)
      Json.arrNil))) 2 1
    [⟨Json.null, Json.null, some 2000, Json.null, Json.str "OTHER"⟩] (by decide)

/-- C5 counterexample: two records identical except for the out-of-range years
1000 and 1500 survive deduplication (line 115, applied before the date
conversion) and are then both coerced to a null date by the conversion on
line 116, so the returned sequence contains two fully-identical rows. -/
theorem c5_counterexample :
    (fetch_worldbank_indicator "EN.ATM.CO2E.PC" 20000 2024
        (fun _ => WBResponse.body (Json.arrCons Json.null (Json.arrCons
          (Json.arrCons
            (Json.objCons "countryiso3code" (Json.str "ABC")
              (Json.objCons "date" (Json.str "1000")
                (Json.objCons "value" (Json.num 1) Json.objNil)))
            (Json.arrCons
              (Json.objCons "countryiso3code" (Json.str "ABC")
                (Json.objCons "date" (Json.str "1500")
                  (Json.objCons "value" (Json.num 1) Json.objNil)))
              Json.arrNil)) Json.arrNil))) 0 1).result
      = .ok [⟨Json.str "ABC", Json.null, none, Json.num 1, Json.null⟩,
             ⟨Json.str "ABC", Json.null, none, Json.num 1, Json.null⟩]
    ∧ ¬ List.Nodup [(⟨Json.str "ABC", Json.null, none, Json.num 1,
          Json.null⟩ : Row),
        ⟨Json.str "ABC", Json.null, none, Json.num 1, Json.null⟩] :=
  ⟨by decide, by decide⟩

/-- C5 (amended): deduplication by full-row equality (line 115) runs before
the date conversion (line 116): the deduplicated list has no two identical
rows and keeps first-occurrence order (a sublist of the processed rows
containing exactly their members), and the returned sequence is its image
under the conversion.  Whenever every surviving year lies inside the pandas
timestamp range the conversion is the identity, so the returned sequence
itself is duplicate-free and in first-occurrence order; out-of-range years
collapse to null and can re-create identical rows (see the counterexample). -/
theorem c5_dedup_before_conversion
    (today : Int) (resp : WBResponse) (rows : List Row)
    (hok : fetch_attempt today resp = .ok rows) :
    ∃ data records recs raws,
      resp = .body data
        ∧ parseEnvelope data = .ok records
        ∧ iter_records records = .ok recs
        ∧ processRecords today recs = .ok raws
        ∧ rows = (drop_duplicates raws).map convertRow
        ∧ (drop_duplicates raws).Nodup
        ∧ List.Sublist (drop_duplicates raws) raws
        ∧ (∀ x, x ∈ drop_duplicates raws ↔ x ∈ raws)
        ∧ ((∀ r ∈ drop_duplicates raws, ∀ y, r.date = some y
              → 1678 ≤ y ∧ y ≤ 2262) →
            rows.Nodup ∧ List.Sublist rows raws) := by
  obtain ⟨data, records, recs, raws, hresp, h1, h2, h3, hrows⟩ := fetch_attempt_ok hok
  refine ⟨data, records, recs, raws, hresp, h1, h2, h3, hrows,
    drop_duplicates_nodup raws, drop_duplicates_sublist raws,
    fun x => mem_drop_duplicates x raws, ?_⟩
  intro hbound
  have hid : (drop_duplicates raws).map convertRow = drop_duplicates raws := by
    have hcongr : (drop_duplicates raws).map convertRow
        = (drop_duplicates raws).map id :=
      List.map_congr_left (fun r hr => convertRow_eq_self (fun y hy => hbound r hr y hy))
    rw [hcongr, List.map_id]
  rw [hrows, hid]
  exact ⟨drop_duplicates_nodup raws, drop_duplicates_sublist raws⟩

/-- Witness for the amended C5, at a response with a repeated record and a
distinct one, all years in range. -/
theorem c5_witness :
    ∃ data records recs raws,
      (WBResponse.body (Json.arrCons Json.null (Json.arrCons
          (Json.arrCons (Json.objCons "date" (Json.str "2000") Json.objNil)
            (Json.arrCons (Json.objCons "date" (Json.str "2000") Json.objNil)
              (Json.arrCons (Json.objCons "date" (Json.str "2001") Json.objNil)
                Json.arrNil))) Json.arrNil)))
          = WBResponse.body data
        ∧ parseEnvelope data = .ok records
        ∧ iter_records records = .ok recs
        ∧ processRecords 2024 recs = .ok raws
        ∧ [(⟨Json.null, Json.null, some 2000, Json.null, Json.null⟩ : Row),
            ⟨Json.null, Json.null, some 2001, Json.null, Json.null⟩]
          = (drop_duplicates raws).map convertRow
        ∧ (drop_duplicates raws).Nodup
        ∧ List.Sublist (drop_duplicates raws) raws
        ∧ (∀ x, x ∈ drop_duplicates raws ↔ x ∈ raws)
        ∧ ((∀ r ∈ drop_duplicates raws, ∀ y, r.date = some y
              → 1678 ≤ y ∧ y ≤ 2262) →
            List.Nodup [(⟨Json.null, Json.null, some 2000, Json.null,
                Json.null⟩ : Row),
              ⟨Json.null, Json.null, some 2001, Json.null, Json.null⟩]
              ∧ List.Sublist [(⟨Json.null, Json.null, some 2000, Json.null,
                  Json.null⟩ : Row),
                ⟨Json.null, Json.null, some 2001, Json.null, Json.null⟩] raws) :=
  c5_dedup_before_conversion 2024
    (WBResponse.body (Json.arrCons Json.null (Json.arrCons
      (Json.arrCons (Json.objCons "date" (Json.str "2000") Json.objNil)
        (Json.arrCons (Json.objCons "date" (Json.str "2000") Json.objNil)
          (Json.arrCons (Json.objCons "date" (Json.str "2001") Json.objNil)
            Json.arrNil))) Json.arrNil)))
    [⟨Json.null, Json.null, some 2000, Json.null, Json.null⟩,
     ⟨Json.null, Json.null, some 2001, Json.null, Json.null⟩] (by decide)

/-- C6: a response body that is not a list of at least two elements fails the
envelope check (lines 98–99) and the attempt raises the ValueError; the loop
then follows the retry path — whenever `retries ≥ 1` a second HTTP attempt is
made — rather than returning a result. -/
theorem c6_bad_envelope_fails
    (today : Int) (data : Json)
    (hbad : ∀ x y t, data ≠ Json.arrCons x (Json.arrCons y t)) :
    fetch_attempt today (.body data) = .error .valueError
      ∧ ∀ (indicator_code : String) (per_page : Nat)
          (provider : Nat → WBResponse) (retries : Nat) (backoff : ℚ),
          provider 0 = .body data → 1 ≤ retries →
          2 ≤ (fetch_worldbank_indicator indicator_code per_page today provider
              retries backoff).attempts := by
  have henv : parseEnvelope data = .error .valueError := by
    cases data
    case arrCons x t =>
      cases t
      case arrCons y t' => exact absurd rfl (hbad x y t')
      all_goals rfl
    all_goals rfl
  have hatt : fetch_attempt today (.body data) = .error .valueError := by
    simp [fetch_attempt, henv]
  refine ⟨hatt, ?_⟩
  intro indicator_code per_page provider retries backoff hp0 hret
  obtain ⟨m, rfl⟩ : ∃ m, retries = m + 1 := ⟨retries - 1, by omega⟩
  have hfa : fetch_attempt today (provider 0) = .error .valueError := by
    rw [hp0]; exact hatt
  have hpos := fetch_go_attempts_pos today provider backoff 1 m
  show 2 ≤ (fetch_go today provider backoff 0 (m + 1)).attempts
  simp only [fetch_go, hfa, Nat.zero_add]
  omega

/-- Witness for C6: the one-element envelope `[3]` fails and, with
`retries = 1`, a second attempt is made. -/
theorem c6_witness :
    fetch_attempt 2024 (.body (Json.arrCons (Json.num 3) Json.arrNil))
        = .error .valueError
      ∧ 2 ≤ (fetch_worldbank_indicator "EN.ATM.CO2E.PC" 20000 2024
          (fun _ => WBResponse.body (Json.arrCons (Json.num 3) Json.arrNil))
          1 1).attempts :=
  have h := c6_bad_envelope_fails 2024 (Json.arrCons (Json.num 3) Json.arrNil)
    (fun x y t hx => by simp at hx)
  ⟨h.1, h.2 "EN.ATM.CO2E.PC" 20000
    (fun _ => WBResponse.body (Json.arrCons (Json.num 3) Json.arrNil)) 1 1
    rfl (by decide)⟩

/-- C7: the `N`-th retry is preceded by a sleep of exactly `backoff * N`
(line 122 — linear, not exponential): the sleep trace is always
`[backoff*1, …, backoff*(attempts-1)]`, so no sleep follows the final failed
attempt; with `retries = 2`, `backoff = 1` and every attempt failing, the
sleeps are `[1, 2]` totalling 3 seconds before the raise. -/
theorem c7_linear_backoff
    (indicator_code : String) (per_page : Nat) (today : Int)
    (provider : Nat → WBResponse) (retries : Nat) (backoff : ℚ) :
    ((fetch_worldbank_indicator indicator_code per_page today provider retries
          backoff).sleeps
        = (List.range ((fetch_worldbank_indicator indicator_code per_page today
              provider retries backoff).attempts - 1)).map
            (fun i : Nat => backoff * ((i : ℚ) + 1)))
      ∧ ((∀ n, ∃ e, fetch_attempt today (provider n) = .error e) →
          (fetch_worldbank_indicator indicator_code per_page today provider 2
              1).sleeps = [1, 2]
            ∧ (fetch_worldbank_indicator indicator_code per_page today provider 2
                1).sleeps.sum = 3
            ∧ (fetch_worldbank_indicator indicator_code per_page today provider 2
                1).attempts = 3) := by
  constructor
  · have h := fetch_go_sleeps_shape today provider backoff retries 0
    have hfun : (fun i : Nat => backoff * (((0 : Nat) : ℚ) + (i : ℚ) + 1))
        = (fun i : Nat => backoff * ((i : ℚ) + 1)) := by
      funext i
      push_cast
      ring
    rw [hfun] at h
    exact h
  · intro hfail
    have hcount : (fetch_worldbank_indicator indicator_code per_page today
        provider 2 1).attempts = 3 :=
      (@fetch_go_all_fail today provider 1 hfail 2 0).1
    have hs : (fetch_worldbank_indicator indicator_code per_page today provider 2
        1).sleeps = [1, 2] := by
      have hshape := fetch_go_sleeps_shape today provider 1 2 0
      show (fetch_go today provider 1 0 2).sleeps = [1, 2]
      rw [hshape]
      have h3 : (fetch_go today provider 1 0 2).attempts = 3 := hcount
      rw [h3]
      norm_num [List.range_succ]
    refine ⟨hs, ?_, hcount⟩
    rw [hs]
    norm_num

/-- Witness for C7 at an always-failing provider with `retries = 2`,
`backoff = 1`. -/
theorem c7_witness :
    (fetch_worldbank_indicator "EN.ATM.CO2E.PC" 20000 2024
        (fun _ => WBResponse.httpFailure) 2 1).sleeps = [1, 2]
      ∧ (fetch_worldbank_indicator "EN.ATM.CO2E.PC" 20000 2024
          (fun _ => WBResponse.httpFailure) 2 1).sleeps.sum = 3
      ∧ (fetch_worldbank_indicator "EN.ATM.CO2E.PC" 20000 2024
          (fun _ => WBResponse.httpFailure) 2 1).attempts = 3 :=
  (c7_linear_backoff "EN.ATM.CO2E.PC" 20000 2024
    (fun _ => WBResponse.httpFailure) 2 1).2 (fun _ => ⟨.httpError, rfl⟩)

/-- C8 counterexample: no dedicated `FetchFailure` type exists — after
exhaustion the bare `raise` on line 121 re-raises the underlying exception,
so different failure causes surface different exception classes (here an HTTP
error versus the envelope ValueError). -/
theorem c8_counterexample :
    (fetch_worldbank_indicator "EN.ATM.CO2E.PC" 20000 2024
        (fun _ => WBResponse.httpFailure) 1 1).result = .error .httpError
      ∧ (fetch_worldbank_indicator "EN.ATM.CO2E.PC" 20000 2024
          (fun _ => WBResponse.body (Json.num 0)) 1 1).result
        = .error .valueError
      ∧ PyErr.httpError ≠ PyErr.valueError := ⟨by decide, by decide, by decide⟩

/-- C8 (amended): when every attempt fails, the function re-raises the
exception of the final attempt (bare `raise`, line 121), whatever its class;
no dedicated failure type wraps it. -/
theorem c8_reraises_final_exception
    (indicator_code : String) (per_page : Nat) (today : Int)
    (provider : Nat → WBResponse) (retries : Nat) (backoff : ℚ) (e : PyErr)
    (hfail : ∀ n, ∃ e', fetch_attempt today (provider n) = .error e')
    (hlast : fetch_attempt today (provider retries) = .error e) :
    (fetch_worldbank_indicator indicator_code per_page today provider retries
        backoff).result = .error e :=
  (fetch_go_all_fail hfail retries 0).2 e (by simpa using hlast)

/-- Witness for the amended C8: a provider whose attempts all fail with a JSON
decode error surfaces exactly that error. -/
theorem c8_witness :
    (fetch_worldbank_indicator "EN.ATM.CO2E.PC" 20000 2024
        (fun _ => WBResponse.invalidJson) 2 1).result = .error .jsonError :=
  c8_reraises_final_exception "EN.ATM.CO2E.PC" 20000 2024
    (fun _ => WBResponse.invalidJson) 2 1 .jsonError
    (fun _ => ⟨.jsonError, rfl⟩) rfl

/-- C9 counterexample: `TODAY` is computed once at module import (line 52).
With import year 2024, a call executing at wall-clock year 2025 drops a
record dated 2025 — although 2025 is not in the future at call time — while
the identical call in a process imported in 2025 keeps it. -/
theorem c9_counterexample :
    (fetch_at_call "EN.ATM.CO2E.PC" 20000 2024 2025
        (fun _ => WBResponse.body (Json.arrCons Json.null (Json.arrCons
          (Json.arrCons (Json.objCons "date" (Json.str "2025")
            (Json.objCons "value" (Json.num 7) Json.objNil)) Json.arrNil)
          Json.arrNil))) 0 1).result = .ok []
      ∧ (fetch_at_call "EN.ATM.CO2E.PC" 20000 2025 2025
          (fun _ => WBResponse.body (Json.arrCons Json.null (Json.arrCons
            (Json.arrCons (Json.objCons "date" (Json.str "2025")
              (Json.objCons "value" (Json.num 7) Json.objNil)) Json.arrNil)
            Json.arrNil))) 0 1).result
        = .ok [⟨Json.null, Json.null, some 2025, Json.num 7, Json.null⟩] :=
  ⟨by decide, by decide⟩

/-- C9 (amended): the future-year threshold is the year captured once at
module import (`TODAY`, line 52, Seoul wall clock), not re-evaluated at each
fetch call: the call's outcome is entirely independent of the wall-clock year
at call time, and every returned year is bounded by the import-time year. -/
theorem c9_threshold_is_import_year
    (indicator_code : String) (per_page : Nat)
    (importYear callYear callYear' : Int) (provider : Nat → WBResponse)
    (retries : Nat) (backoff : ℚ) :
    fetch_at_call indicator_code per_page importYear callYear provider retries
        backoff
      = fetch_at_call indicator_code per_page importYear callYear' provider
          retries backoff
      ∧ ∀ rows, (fetch_at_call indicator_code per_page importYear callYear
            provider retries backoff).result = .ok rows →
          ∀ r ∈ rows, ∀ y, r.date = some y → y ≤ importYear := by
  refine ⟨rfl, ?_⟩
  intro rows hok r hr y hy
  obtain ⟨n, hatt⟩ := fetch_go_result_ok hok
  obtain ⟨data, records, recs, raws, _, _, _, hproc, hrows⟩ := fetch_attempt_ok hatt
  rcases List.mem_map.mp (hrows ▸ hr) with ⟨r0, hr0, rfl⟩
  obtain ⟨hd0, _, _⟩ := convertRow_date hy
  exact processRecords_date_le hproc r0
    ((mem_drop_duplicates r0 raws).mp hr0) y hd0

/-- Witness for the amended C9: two different call-time years give the same
outcome. -/
theorem c9_witness :
    fetch_at_call "EN.ATM.CO2E.PC" 20000 2024 2030
        (fun _ => WBResponse.httpFailure) 0 1
      = fetch_at_call "EN.ATM.CO2E.PC" 20000 2024 1999
          (fun _ => WBResponse.httpFailure) 0 1
      ∧ ∀ rows, (fetch_at_call "EN.ATM.CO2E.PC" 20000 2024 2030
            (fun _ => WBResponse.httpFailure) 0 1).result = .ok rows →
          ∀ r ∈ rows, ∀ y, r.date = some y → y ≤ 2024 :=
  c9_threshold_is_import_year "EN.ATM.CO2E.PC" 20000 2024 2030 1999
    (fun _ => WBResponse.httpFailure) 0 1

/-- C10: a record in which the "country", "indicator", or "countryiso3code"
key is absent does not make the fetch fail: `rec.get` with its default (lines
107–111) turns each absent key into a null output field, and — provided the
date itself parses — an output record is still produced. -/
theorem c10_missing_keys_null
    (today : Int) (fields : Json) (d : Option Int)
    (hobj : (∃ k v t, fields = Json.objCons k v t) ∨ fields = Json.objNil)
    (hd : parse_date (jsonGetD fields "date") = .ok d)
    (hy : ∀ y, d = some y → y ≤ today) :
    (lookupField fields "country" = none → get_country_value fields = .ok .null)
      ∧ (lookupField fields "indicator" = none
          → get_indicator_id fields = .ok .null)
      ∧ (lookupField fields "countryiso3code" = none
          → jsonGetD fields "countryiso3code" = .null)
      ∧ (lookupField fields "country" = none →
          lookupField fields "indicator" = none →
          processRecord today fields
            = .ok (some ⟨jsonGetD fields "countryiso3code", .null, d,
                jsonGetD fields "value", .null⟩)) := by
  have hcv : lookupField fields "country" = none
      → get_country_value fields = .ok .null := by
    intro h
    simp [get_country_value, h]
  have hiv : lookupField fields "indicator" = none
      → get_indicator_id fields = .ok .null := by
    intro h
    simp [get_indicator_id, h]
  refine ⟨hcv, hiv, fun h => by simp [jsonGetD, h], ?_⟩
  intro hc hi
  have hpf : process_fields today fields
      = .ok (some ⟨jsonGetD fields "countryiso3code", .null, d,
          jsonGetD fields "value", .null⟩) := by
    unfold process_fields
    rw [hd]
    rcases d with _ | y
    · simp [build_row, hcv hc, hiv hi]
    · have hnlt : ¬ today < y := not_lt.mpr (hy y rfl)
      simp [build_row, hnlt, hcv hc, hiv hi]
  rcases hobj with ⟨k, v, t, rfl⟩ | rfl <;> simpa [processRecord] using hpf

/-- Witness for C10: the empty record produces an all-null row. -/
theorem c10_witness :
    processRecord 2024 Json.objNil
      = .ok (some ⟨Json.null, Json.null, none, Json.null, Json.null⟩) :=
  (c10_missing_keys_null 2024 Json.objNil none (Or.inr rfl) rfl
    (fun y h => Option.noConfusion h)).2.2.2 rfl rfl
